import Mathlib

/-!
Verification of `src/futures-test/src/future/assert_unmoved.rs` from the
futures-rs repository: the `AssertUnmoved` combinator, a diagnostic wrapper
that panics if the wrapped future is relocated in memory after its first
poll, or between its last poll and its drop.

Shallow embedding choices:
* Storage addresses are natural numbers (`Addr`).  The Rust sentinel
  `ptr::null()` stored in `this_ptr` is modelled as `none : Option Addr`;
  a live object never sits at the null address, so the sentinel is disjoint
  from every current address, exactly as in the source.
* The wrapped future is modelled as a state type `σ` together with a
  deterministic step function `pollF : σ → Poll α × σ` giving the result of
  one poll and the successor state.
* A panic raised by an `assert_eq!` in `poll` is modelled as an
  `Except.error` result; the Rust panic happens before any field is written
  and before the inner future is polled, so the guard state returned
  alongside the error is the unchanged input state.
* `thread::panicking()` at drop time is a `Bool` parameter of the drop
  model; the drop check is a pure function returning `Option
  AddressViolation` (`some` = the `assert_eq!` in `drop` panics).
-/

/-- Suspension status produced by one poll of a computation: still suspended
(`pending`) or finished with a result (`ready`).  Models
`futures_core::task::Poll`. -/
inductive Poll (α : Type) : Type
  | pending : Poll α
  | ready (a : α) : Poll α
deriving DecidableEq

/-- Storage addresses, modelled as natural numbers. -/
abbrev Addr : Type := Nat

/-- The two causes of a violation: the message of the `assert_eq!` in `poll`
("Future moved between poll calls") and of the one in `drop`
("Future moved before drop"). -/
inductive Cause : Type
  | relocatedBetweenActivations : Cause
  | relocatedBeforeFinalization : Cause
deriving DecidableEq

/-- The single error kind raised by the guard. -/
structure AddressViolation : Type where
  cause : Cause
deriving DecidableEq

/-- The guard struct of `assert_unmoved.rs`: `future` is the state of the
wrapped computation, `this_ptr` the observed address, initialised to the
null sentinel (`none`). -/
structure AssertUnmoved (σ : Type) : Type where
  future : σ
  this_ptr : Option Addr
deriving DecidableEq

/-- `AssertUnmoved::new`: stores the future, `this_ptr = ptr::null()`. -/
def AssertUnmoved.new {σ : Type} (future : σ) : AssertUnmoved σ :=
  { future := future, this_ptr := none }

/-- `<AssertUnmoved as Future>::poll`, called with the guard currently
stored at address `cur` (`cur_this` in the source).  If `this_ptr` is null
it is set to `cur` (first poll); else if it differs from `cur` the
`assert_eq!` panics ("Future moved between poll calls") before the inner
future is polled and without touching any field; otherwise the call
delegates to the wrapped future's poll and returns its result verbatim. -/
def AssertUnmoved.poll {σ α : Type} (pollF : σ → Poll α × σ)
    (s : AssertUnmoved σ) (cur : Addr) :
    Except AddressViolation (Poll α) × AssertUnmoved σ :=
  match s.this_ptr with
  | none =>
      let r := pollF s.future
      (Except.ok r.1, { future := r.2, this_ptr := some cur })
  | some p =>
      if p = cur then
        let r := pollF s.future
        (Except.ok r.1, { future := r.2, this_ptr := some p })
      else
        (Except.error { cause := Cause.relocatedBetweenActivations }, s)

/-- `PinnedDrop::drop` for `AssertUnmoved`, with the guard currently stored
at address `cur` and `panicking` the value of `std::thread::panicking()`.
Returns `some violation` iff the `assert_eq!` in `drop` panics
("Future moved before drop").  The check runs only when the thread is not
already panicking and `this_ptr` is non-null. -/
def AssertUnmoved.pinnedDrop {σ : Type} (s : AssertUnmoved σ)
    (cur : Addr) (panicking : Bool) : Option AddressViolation :=
  if panicking = false ∧ s.this_ptr ≠ none then
    if s.this_ptr = some cur then none
    else some { cause := Cause.relocatedBeforeFinalization }
  else none

/-- `#[derive(Clone)]` for `AssertUnmoved`: clones the wrapped future with
the future's own clone (`cloneF`) and copies the raw pointer `this_ptr`
verbatim (a `*const T` is `Copy`). -/
def AssertUnmoved.clone {σ : Type} (cloneF : σ → σ) (s : AssertUnmoved σ) :
    AssertUnmoved σ :=
  { future := cloneF s.future, this_ptr := s.this_ptr }

/-- Runs a sequence of poll calls, each at its own current address, starting
from guard state `s`.  A panic in a poll propagates (Rust unwinding): the
remaining poll calls do not occur, and the flag returned alongside the final
state records whether a violation was raised. -/
def AssertUnmoved.runPolls {σ α : Type} (pollF : σ → Poll α × σ) :
    List Addr → AssertUnmoved σ → AssertUnmoved σ × Bool
  | [], s => (s, false)
  | a :: rest, s =>
      match AssertUnmoved.poll pollF s a with
      | (Except.ok _, s') => AssertUnmoved.runPolls pollF rest s'
      | (Except.error _, s') => (s', true)

/-- Total number of violations raised during a complete lifetime of one
guard instance: a sequence of poll calls at addresses `addrs` (cut short by
unwinding if one panics), followed by the one drop at address `dropAddr`.
At drop time `thread::panicking()` is true iff a poll violated or the
thread is unwinding for an unrelated reason (`extPanic`). -/
def AssertUnmoved.violationCount {σ α : Type} (pollF : σ → Poll α × σ)
    (f : σ) (addrs : List Addr) (dropAddr : Addr) (extPanic : Bool) : Nat :=
  let r := AssertUnmoved.runPolls pollF addrs (AssertUnmoved.new f)
  (if r.2 then 1 else 0) +
    (if (AssertUnmoved.pinnedDrop r.1 dropAddr (r.2 || extPanic)).isSome
      then 1 else 0)

/-- `n` successive polls of the bare computation, collecting the results. -/
def runDirect {σ α : Type} (pollF : σ → Poll α × σ) : Nat → σ → List (Poll α)
  | 0, _ => []
  | Nat.succ n, f =>
      let r := pollF f
      r.1 :: runDirect pollF n r.2

/-- `n` successive polls of the guard, all at the same address `a`
(no relocation), collecting the results; stops at the first violation. -/
def AssertUnmoved.runGuarded {σ α : Type} (pollF : σ → Poll α × σ) :
    Nat → AssertUnmoved σ → Addr → Except AddressViolation (List (Poll α))
  | 0, _, _ => Except.ok []
  | Nat.succ n, s, a =>
      match AssertUnmoved.poll pollF s a with
      | (Except.ok r, s') =>
          (AssertUnmoved.runGuarded pollF n s' a).map (fun l => r :: l)
      | (Except.error e, _) => Except.error e

/-- A concrete wrapped computation used in witnesses: a counter that is
pending twice and then ready with its state. -/
def ctrStep (n : Nat) : Poll Nat × Nat :=
  (if 2 ≤ n then Poll.ready n else Poll.pending, n + 1)

/-- C1: once `this_ptr` has been set by a first poll, a later poll panics
with "Future moved between poll calls" if and only if the guard's current
address differs from the observed one, the panic being the immediate result
of the call. -/
theorem AssertUnmoved.poll_violation_iff {σ α : Type} (pollF : σ → Poll α × σ)
    (s : AssertUnmoved σ) (p cur : Addr) (h : s.this_ptr = some p) :
    (AssertUnmoved.poll pollF s cur).1 =
      Except.error { cause := Cause.relocatedBetweenActivations } ↔ cur ≠ p := by
  obtain ⟨f, tp⟩ := s
  simp only [AssertUnmoved.this_ptr] at h
  subst h
  by_cases hpc : p = cur
  · subst hpc
    simp [AssertUnmoved.poll]
  · simp [AssertUnmoved.poll, hpc, Ne.symm hpc]

/-- Closed witness for C1 at a concrete guard and address. -/
theorem AssertUnmoved.poll_violation_iff_witness :
    (({ future := 0, this_ptr := some 5 } : AssertUnmoved Nat).this_ptr
        = some 5) ∧
    ((AssertUnmoved.poll ctrStep
        ({ future := 0, this_ptr := some 5 } : AssertUnmoved Nat) 7).1 =
      Except.error { cause := Cause.relocatedBetweenActivations } ↔
        (7 : Addr) ≠ 5) :=
  ⟨rfl, AssertUnmoved.poll_violation_iff ctrStep
    { future := 0, this_ptr := some 5 } 5 7 rfl⟩

/-- C2: the drop check is skipped entirely while the thread is already
panicking; otherwise it is skipped when `this_ptr` is still null; otherwise
it panics with "Future moved before drop" if and only if the current
address differs from the observed one. -/
theorem AssertUnmoved.pinnedDrop_spec {σ : Type} (s : AssertUnmoved σ)
    (cur : Addr) :
    AssertUnmoved.pinnedDrop s cur true = none ∧
    (s.this_ptr = none → AssertUnmoved.pinnedDrop s cur false = none) ∧
    (∀ q : Addr, s.this_ptr = some q →
      (AssertUnmoved.pinnedDrop s cur false =
        some { cause := Cause.relocatedBeforeFinalization } ↔ cur ≠ q)) := by
  refine ⟨by simp [AssertUnmoved.pinnedDrop], ?_, ?_⟩
  · intro h
    simp [AssertUnmoved.pinnedDrop, h]
  · intro q h
    by_cases hqc : q = cur
    · subst hqc
      simp [AssertUnmoved.pinnedDrop, h]
    · simp [AssertUnmoved.pinnedDrop, h, hqc, Ne.symm hqc]

/-- Closed witness for C2 at a concrete activated guard. -/
theorem AssertUnmoved.pinnedDrop_spec_witness :
    (({ future := 0, this_ptr := some 4 } : AssertUnmoved Nat).this_ptr
        = some 4) ∧
    (AssertUnmoved.pinnedDrop
        ({ future := 0, this_ptr := some 4 } : AssertUnmoved Nat) 9 false =
      some { cause := Cause.relocatedBeforeFinalization } ↔ (9 : Addr) ≠ 4) :=
  ⟨rfl, (AssertUnmoved.pinnedDrop_spec
    { future := 0, this_ptr := some 4 } 9).2.2 4 rfl⟩

/-- C5: dropping a guard that was never polled raises no violation, at any
drop address and in any panicking state, so any relocation before first
activation is permitted. -/
theorem AssertUnmoved.drop_unpolled {σ : Type} (f : σ) (cur : Addr)
    (panicking : Bool) :
    AssertUnmoved.pinnedDrop (AssertUnmoved.new f) cur panicking = none := by
  simp [AssertUnmoved.pinnedDrop, AssertUnmoved.new]

/-- C8: construction stores the future unchanged and sets `this_ptr` to the
null sentinel; being a pure record constructor it performs no check. -/
theorem AssertUnmoved.new_spec {σ : Type} (f : σ) :
    (AssertUnmoved.new f).future = f ∧
    (AssertUnmoved.new f).this_ptr = none :=
  ⟨rfl, rfl⟩

/-- C9: a poll at an address differing from the observed one returns the
violation with the guard state fully unchanged; in particular the result
does not depend on `pollF`, so the wrapped future is not polled. -/
theorem AssertUnmoved.poll_violation_no_delegate {σ α : Type}
    (pollF : σ → Poll α × σ) (s : AssertUnmoved σ) (p cur : Addr)
    (h1 : s.this_ptr = some p) (h2 : cur ≠ p) :
    AssertUnmoved.poll pollF s cur =
      (Except.error { cause := Cause.relocatedBetweenActivations }, s) := by
  obtain ⟨f, tp⟩ := s
  simp only [AssertUnmoved.this_ptr] at h1
  subst h1
  have hpc : ¬ p = cur := Ne.symm h2
  simp [AssertUnmoved.poll, hpc]

/-- Closed witness for C9 at a concrete guard and mismatched address. -/
theorem AssertUnmoved.poll_violation_no_delegate_witness :
    (({ future := 2, this_ptr := some 6 } : AssertUnmoved Nat).this_ptr
        = some 6) ∧ ((11 : Addr) ≠ 6) ∧
    AssertUnmoved.poll ctrStep
        ({ future := 2, this_ptr := some 6 } : AssertUnmoved Nat) 11 =
      (Except.error { cause := Cause.relocatedBetweenActivations },
        { future := 2, this_ptr := some 6 }) :=
  ⟨rfl, by decide, AssertUnmoved.poll_violation_no_delegate ctrStep
    { future := 2, this_ptr := some 6 } 6 11 rfl (by decide)⟩

/-- C3: over a complete lifetime of one guard instance — any sequence of
poll calls, cut short by unwinding if one panics, followed by the one drop,
which observes `thread::panicking()` — at most one violation is raised. -/
theorem AssertUnmoved.at_most_one_violation {σ α : Type}
    (pollF : σ → Poll α × σ) (f : σ) (addrs : List Addr) (dropAddr : Addr)
    (extPanic : Bool) :
    AssertUnmoved.violationCount pollF f addrs dropAddr extPanic ≤ 1 := by
  simp only [AssertUnmoved.violationCount]
  generalize AssertUnmoved.runPolls pollF addrs (AssertUnmoved.new f) = r
  obtain ⟨s, v⟩ := r
  cases v
  · simp only [Bool.false_or, if_neg Bool.false_ne_true, Nat.zero_add]
    split <;> simp
  · simp [AssertUnmoved.pinnedDrop]

/-- Auxiliary: polling the guard repeatedly at its observed address behaves
exactly like polling the bare computation. -/
theorem AssertUnmoved.runGuarded_pinned {σ α : Type} (pollF : σ → Poll α × σ)
    (n : Nat) :
    ∀ (f : σ) (a : Addr),
      AssertUnmoved.runGuarded pollF n { future := f, this_ptr := some a } a =
        Except.ok (runDirect pollF n f) := by
  induction n with
  | zero => intro f a; rfl
  | succ n ih =>
      intro f a
      simp [AssertUnmoved.runGuarded, AssertUnmoved.poll, runDirect, ih,
        Except.map]

/-- C4: a poll that raises no violation (null `this_ptr`, or current address
equal to the observed one) delegates to the wrapped future and returns its
status verbatim, so with no relocation at all the guard's poll results are
exactly those of polling the wrapped computation directly. -/
theorem AssertUnmoved.transparent {σ α : Type} (pollF : σ → Poll α × σ) :
    (∀ (s : AssertUnmoved σ) (a : Addr),
        s.this_ptr = none ∨ s.this_ptr = some a →
        AssertUnmoved.poll pollF s a =
          (Except.ok (pollF s.future).1,
            { future := (pollF s.future).2, this_ptr := some a })) ∧
    (∀ (n : Nat) (f : σ) (a : Addr),
        AssertUnmoved.runGuarded pollF n (AssertUnmoved.new f) a =
          Except.ok (runDirect pollF n f)) := by
  constructor
  · rintro ⟨f, tp⟩ a (h | h) <;> simp only [AssertUnmoved.this_ptr] at h <;>
      subst h <;> simp [AssertUnmoved.poll]
  · intro n f a
    cases n with
    | zero => rfl
    | succ n =>
        simp [AssertUnmoved.runGuarded, AssertUnmoved.new, AssertUnmoved.poll,
          runDirect, AssertUnmoved.runGuarded_pinned pollF n, Except.map]

/-- Closed witness for C4: a first poll at address 5 and a four-poll run at
a fixed address, on the concrete counter future. -/
theorem AssertUnmoved.transparent_witness :
    ((AssertUnmoved.new (0 : Nat)).this_ptr = none ∨
      (AssertUnmoved.new (0 : Nat)).this_ptr = some 5) ∧
    AssertUnmoved.poll ctrStep (AssertUnmoved.new (0 : Nat)) 5 =
      (Except.ok (ctrStep 0).1,
        { future := (ctrStep 0).2, this_ptr := some 5 }) ∧
    AssertUnmoved.runGuarded ctrStep 4 (AssertUnmoved.new (0 : Nat)) 5 =
      Except.ok (runDirect ctrStep 4 0) :=
  ⟨Or.inl rfl,
   (AssertUnmoved.transparent ctrStep).1 (AssertUnmoved.new 0) 5 (Or.inl rfl),
   (AssertUnmoved.transparent ctrStep).2 4 0 5⟩

/-- C6: `this_ptr` is the null sentinel at construction, a poll finding it
null sets it to the current address, and a poll finding it already set
leaves it unchanged, whether it validates or panics (the drop check writes
nothing by definition). -/
theorem AssertUnmoved.this_ptr_set_once {σ α : Type}
    (pollF : σ → Poll α × σ) :
    (∀ f : σ, (AssertUnmoved.new f).this_ptr = none) ∧
    (∀ (s : AssertUnmoved σ) (a : Addr), s.this_ptr = none →
        ((AssertUnmoved.poll pollF s a).2).this_ptr = some a) ∧
    (∀ (s : AssertUnmoved σ) (a p : Addr), s.this_ptr = some p →
        ((AssertUnmoved.poll pollF s a).2).this_ptr = some p) := by
  refine ⟨fun f => rfl, ?_, ?_⟩
  · rintro ⟨f, tp⟩ a h
    simp only [AssertUnmoved.this_ptr] at h
    subst h
    simp [AssertUnmoved.poll]
  · rintro ⟨f, tp⟩ a p h
    simp only [AssertUnmoved.this_ptr] at h
    subst h
    by_cases hpa : p = a
    · subst hpa
      simp [AssertUnmoved.poll]
    · simp [AssertUnmoved.poll, hpa]

/-- Closed witness for C6: a first poll at address 3 pins, and a mismatched
second poll at address 8 leaves the pin unchanged. -/
theorem AssertUnmoved.this_ptr_set_once_witness :
    ((AssertUnmoved.new (0 : Nat)).this_ptr = none) ∧
    ((AssertUnmoved.poll ctrStep (AssertUnmoved.new (0 : Nat)) 3).2.this_ptr
        = some 3) ∧
    ((AssertUnmoved.poll ctrStep
        ({ future := 1, this_ptr := some 3 } : AssertUnmoved Nat) 8).2.this_ptr
        = some 3) :=
  ⟨(AssertUnmoved.this_ptr_set_once ctrStep).1 0,
   (AssertUnmoved.this_ptr_set_once ctrStep).2.1 (AssertUnmoved.new 0) 3 rfl,
   (AssertUnmoved.this_ptr_set_once ctrStep).2.2
     { future := 1, this_ptr := some 3 } 8 3 rfl⟩

/-- C7: polling a fresh guard once and then dropping it at that same
address raises no violation in either call. -/
theorem AssertUnmoved.poll_once_drop_same {σ α : Type}
    (pollF : σ → Poll α × σ) (f : σ) (a : Addr) :
    (AssertUnmoved.poll pollF (AssertUnmoved.new f) a).1 =
      Except.ok (pollF f).1 ∧
    AssertUnmoved.pinnedDrop
      (AssertUnmoved.poll pollF (AssertUnmoved.new f) a).2 a false = none := by
  constructor
  · simp [AssertUnmoved.poll, AssertUnmoved.new]
  · simp [AssertUnmoved.poll, AssertUnmoved.new, AssertUnmoved.pinnedDrop]

/-- C10: the derived clone copies `this_ptr` verbatim alongside the cloned
future, so the clone of an activated guard is not in the unstarted state and
its first poll panics unless the clone sits at the original's observed
address. -/
theorem AssertUnmoved.clone_spec {σ α : Type} (cloneF : σ → σ)
    (pollF : σ → Poll α × σ) (s : AssertUnmoved σ) :
    (AssertUnmoved.clone cloneF s).this_ptr = s.this_ptr ∧
    (AssertUnmoved.clone cloneF s).future = cloneF s.future ∧
    (∀ (p cur : Addr), s.this_ptr = some p →
      ((AssertUnmoved.poll pollF (AssertUnmoved.clone cloneF s) cur).1 =
          Except.error { cause := Cause.relocatedBetweenActivations } ↔
        cur ≠ p)) := by
  refine ⟨rfl, rfl, ?_⟩
  intro p cur h
  rcases s with ⟨f, tp⟩
  simp only [AssertUnmoved.this_ptr] at h
  subst h
  by_cases hpc : p = cur
  · subst hpc
    simp [AssertUnmoved.poll, AssertUnmoved.clone]
  · simp [AssertUnmoved.poll, AssertUnmoved.clone, hpc, Ne.symm hpc]

/-- Closed witness for C10: the clone of a guard pinned at address 6,
polled at address 9, panics. -/
theorem AssertUnmoved.clone_spec_witness :
    (({ future := 0, this_ptr := some 6 } : AssertUnmoved Nat).this_ptr
        = some 6) ∧
    ((AssertUnmoved.poll ctrStep
        (AssertUnmoved.clone Nat.succ
          ({ future := 0, this_ptr := some 6 } : AssertUnmoved Nat)) 9).1 =
      Except.error { cause := Cause.relocatedBetweenActivations } ↔
        (9 : Addr) ≠ 6) :=
  ⟨rfl, (AssertUnmoved.clone_spec Nat.succ ctrStep
    { future := 0, this_ptr := some 6 }).2.2 6 9 rfl⟩
